import Mathlib

/-!
Shallow embedding of the tunnel session engine of `src/tunnel.rs`
(`SnxClient::authenticate`, `SnxTunnel::client_hello`, `SnxTunnel::keepalive`,
`SnxTunnel::reauth` and the `SnxTunnel::run` loop), together with the data
model those operations use.  Machine integers (`u64`) are modelled as `Nat`
with explicit reduction modulo `2 ^ 64` wherever the Rust code performs
wrapping arithmetic (`AtomicU64::fetch_add` / `fetch_sub`).  `Duration`
values are modelled as whole seconds (`Nat`), since every duration in the
code is built with `Duration::from_secs`; the panicking subtraction
`Duration - Duration` is modelled by an `Option` that is `none` exactly when
the Rust code would panic.
-/

/-- Wrap-around modulus of the Rust `u64` / `AtomicU64` type: `2 ^ 64`,
written as a literal so that it reduces. -/
def U64_MOD : Nat := 18446744073709551616

/-- `const REAUTH_LEEWAY: Duration = Duration::from_secs(60)` from
`src/tunnel.rs`, in seconds. -/
def REAUTH_LEEWAY : Nat := 60

/-- Rust `Duration - Duration` (both in whole seconds): panics on underflow,
modelled as `none`. -/
def durationSubSecs (a b : Nat) : Option Nat :=
  if b ≤ a then some (a - b) else none

/-- Rust `str::parse::<u64>()`: an optional leading plus sign, then one or
more ASCII digits, value below `2 ^ 64`; everything else is a parse error
(`none`). -/
def parseU64 (s : String) : Option Nat :=
  let cs :=
    match s.data with
    | '+' :: rest => rest
    | cs => cs
  if cs.isEmpty then none
  else if cs.all Char.isDigit then
    let n := cs.foldl (fun acc c => acc * 10 + (c.toNat - 48)) 0
    if n < U64_MOD then some n else none
  else none

/-- Minimal JSON values, enough for the structured payload of a `Control`
packet (`serde_json::Value` in the source). -/
inductive Json where
  | str : String → Json
  | obj : List (String × Json) → Json
  | null : Json

/-- Key lookup in a JSON object field list. -/
def lookupField : List (String × Json) → String → Option Json
  | [], _ => none
  | (k, v) :: rest, key => if k = key then some v else lookupField rest key

/-- Field access on a JSON value: defined only on objects. -/
def Json.getField : Json → String → Option Json
  | .obj fields, key => lookupField fields key
  | _, _ => none

/-- String extraction from a JSON value. -/
def Json.asStr : Json → Option String
  | .str s => some s
  | _ => none

/-- `SnxPacket` from the source's `model` module: a `Control` message (name
plus structured payload) or a raw `Data` payload (bytes as `Nat`s below
256). -/
inductive SnxPacket where
  | Control : String → Json → SnxPacket
  | Data : List Nat → SnxPacket

/-- `OfficeMode` fields of the handshake request
(`office_mode{ipaddr, keep_address, dns_servers, dns_suffix}`). -/
structure OfficeMode where
  ipaddr : String
  keep_address : Option String
  dns_servers : Option (List String)
  dns_suffix : Option String
  deriving Repr, DecidableEq

/-- `OptionalRequest` field of the handshake request (`optional{client_type}`). -/
structure OptionalRequest where
  client_type : String
  deriving Repr, DecidableEq

/-- `ClientHello` handshake request, with the fields built by
`SnxTunnel::new_hello_request`. -/
structure ClientHello where
  client_version : String
  protocol_version : String
  protocol_minor_version : String
  office_mode : OfficeMode
  optional : Option OptionalRequest
  cookie : String
  deriving Repr, DecidableEq

/-- Office-mode part of the handshake reply (`office_mode{ipaddr}`). -/
structure ReplyOfficeMode where
  ipaddr : String
  deriving Repr, DecidableEq

/-- Timeout fields of the handshake reply, decimal-seconds strings
(`timeouts{authentication, keepalive}`). -/
structure Timeouts where
  authentication : String
  keepalive : String
  deriving Repr, DecidableEq

/-- `HelloReply` handshake reply, with the fields `client_hello` reads. -/
structure HelloReply where
  office_mode : ReplyOfficeMode
  timeouts : Timeouts
  deriving Repr, DecidableEq

/-- Modelled from the spec: the `model` module declaring the protocol
constant `HelloReply::NAME` is not under `src/`; the names are protocol
constants only compared for equality, so a fixed string distinct from the
keepalive name is used. -/
def HelloReply.NAME : String := "hello_reply"

/-- `KeepaliveRequest` Control message payload (field: `id`). -/
structure KeepaliveRequest where
  id : String
  deriving Repr, DecidableEq

/-- Modelled from the spec: the `model` module declaring the protocol
constant `KeepaliveRequest::NAME` is not under `src/`; a fixed string
distinct from the hello-reply name is used, as only name equality matters. -/
def KeepaliveRequest.NAME : String := "keepalive"

/-- Modelled from the spec: `serde_json::from_value::<HelloReply>` — the
derive is in the missing `model` module; per the spec the reply carries
`office_mode{ipaddr}` and `timeouts{authentication, keepalive}` as strings,
so deserialization succeeds exactly when those fields are present with
string values. -/
def helloReplyFromValue (v : Json) : Except String HelloReply :=
  match ((v.getField "office_mode").bind (fun om => om.getField "ipaddr")).bind Json.asStr,
        ((v.getField "timeouts").bind (fun t => t.getField "authentication")).bind Json.asStr,
        ((v.getField "timeouts").bind (fun t => t.getField "keepalive")).bind Json.asStr with
  | some ip, some a, some k =>
      .ok { office_mode := { ipaddr := ip }, timeouts := { authentication := a, keepalive := k } }
  | _, _, _ => .error "JSON deserialization error"

/-- The configuration fields of `TunnelParams` the tunnel core reads
(`server_name`, `reauth`); the full struct lives in the `params` module,
outside `src/`. -/
structure TunnelParams where
  server_name : String
  reauth : Bool
  deriving Repr, DecidableEq

/-- The mutable state of a `SnxTunnel` value: everything except the channel
plumbing (`sender`/`receiver`), which is modelled by passing received
packets in and returning sent messages out.  `auth_timeout` and `keepalive`
are seconds; `keepalive_counter` is the shared `AtomicU64`. -/
structure SnxTunnel where
  params : TunnelParams
  cookie : String
  session_id : String
  auth_timeout : Nat
  keepalive : Nat
  ip_address : String
  keepalive_counter : Nat
  deriving Repr, DecidableEq

/-- A message handed to `SnxTunnel::send`, before its `Into<SnxPacket>`
conversion: the outbound queue of the tunnel. -/
inductive SentMsg where
  | hello : ClientHello → SentMsg
  | keepaliveReq : KeepaliveRequest → SentMsg
  | data : List Nat → SentMsg
  deriving Repr, DecidableEq

/-- `SnxTunnel::new_hello_request`. -/
def SnxTunnel.new_hello_request (st : SnxTunnel) (keep_address : Bool) : ClientHello :=
  { client_version := "1"
    protocol_version := "1"
    protocol_minor_version := "1"
    office_mode :=
      { ipaddr := st.ip_address
        keep_address := some (toString keep_address)
        dns_servers := none
        dns_suffix := none }
    optional := some { client_type := "4" }
    cookie := st.cookie }

/-- Outcome of `SnxTunnel::client_hello`: success with the parsed reply and
the post-call tunnel state, an `anyhow` error together with the tunnel state
as the mutations so far left it, or a Rust panic (the `Duration`
subtraction underflowing). -/
inductive HelloOutcome where
  | ok : HelloReply → SnxTunnel → HelloOutcome
  | err : String → SnxTunnel → HelloOutcome
  | panicked : HelloOutcome
  deriving Repr, DecidableEq

/-- `SnxTunnel::client_hello`: sends a hello request with
`keep_address = false` and consumes one packet from the inbound queue
(`none` models the channel being closed).  Mutation order follows the
source: `ip_address` is assigned before the `authentication` timeout is
parsed, `auth_timeout` before the `keepalive` timeout is parsed. -/
def SnxTunnel.client_hello (st : SnxTunnel) (reply : Option SnxPacket) :
    ClientHello × HelloOutcome :=
  (st.new_hello_request false,
    match reply with
    | none => .err "Channel closed!" st
    | some (SnxPacket.Control name value) =>
        if name = HelloReply.NAME then
          match helloReplyFromValue value with
          | .error e => .err e st
          | .ok result =>
              let st1 := { st with ip_address := result.office_mode.ipaddr }
              match parseU64 result.timeouts.authentication with
              | none => .err "Invalid auth timeout!" st1
              | some n =>
                  match durationSubSecs n REAUTH_LEEWAY with
                  | none => .panicked
                  | some a =>
                      let st2 := { st1 with auth_timeout := a }
                      match parseU64 result.timeouts.keepalive with
                      | none => .err "Invalid keepalive timeout!" st2
                      | some k => .ok result { st2 with keepalive := k }
        else .err "Unexpected reply" st
    | some (SnxPacket.Data _) => .err "Unexpected reply" st)

/-- `SnxTunnel::keepalive` (the spec's `send_keepalive()`): returns the call
result, the post-call state, and the messages pushed onto the outbound
queue.  The counter increment is the wrapping `AtomicU64::fetch_add`. -/
def SnxTunnel.send_keepalive (st : SnxTunnel) :
    Except String Unit × SnxTunnel × List SentMsg :=
  if st.keepalive_counter ≥ 3 then
    (.error "No response for keepalive packets, tunnel appears stuck", st, [])
  else
    (.ok (),
      { st with keepalive_counter := (st.keepalive_counter + 1) % U64_MOD },
      [SentMsg.keepaliveReq { id := "0" }])

/-- One step of the inbound-handling task spawned by `SnxTunnel::run`: takes
the shared counter and the packets written to the virtual interface so far,
and one inbound packet.  A keepalive acknowledgment performs the wrapping
`AtomicU64::fetch_sub(1)`; a `Data` packet stores `0` into the counter and
writes its payload to the interface; any other `Control` packet is only
logged. -/
def processInbound (s : Nat × List (List Nat)) (pkt : SnxPacket) : Nat × List (List Nat) :=
  match pkt with
  | .Control name _ =>
      if name = KeepaliveRequest.NAME then ((s.1 + (U64_MOD - 1)) % U64_MOD, s.2)
      else s
  | .Data d => (0, s.2 ++ [d])

/-- Value of an ASCII hex digit, or `none` for any other character. -/
def hexDigitVal (c : Char) : Option Nat :=
  if '0' ≤ c ∧ c ≤ '9' then some (c.toNat - 48)
  else if 'a' ≤ c ∧ c ≤ 'f' then some (c.toNat - 87)
  else if 'A' ≤ c ∧ c ≤ 'F' then some (c.toNat - 55)
  else none

/-- Modelled from the spec: `util::decode_from_hex` lives in the `util`
module, outside `src/`; the spec says the active key "is hex-decoded", and
the `?` at its call site in `src/tunnel.rs` shows decoding is fallible, so
it is standard hex decoding of the key's characters into bytes, failing on
a character that is not a hex digit or on an odd number of digits. -/
def decode_from_hex : List Char → Except String (List Nat)
  | [] => .ok []
  | [_] => .error "Odd number of digits"
  | a :: b :: rest =>
      match hexDigitVal a, hexDigitVal b with
      | some x, some y => (decode_from_hex rest).map (fun tl => (16 * x + y) :: tl)
      | _, _ => .error "Invalid hex character"

/-- One pass of `String::from_utf8_lossy` over a byte list, with explicit
fuel (each step consumes at least one byte, so fuel = input length
suffices): ASCII and well-formed 2/3/4-byte sequences decode to their code
point; an invalid byte or truncated sequence yields U+FFFD.  Only ASCII
inputs are evaluated by the theorems below. -/
def utf8LossyChars : Nat → List Nat → List Char
  | 0, _ => []
  | _, [] => []
  | fuel + 1, b :: rest =>
      if b < 0x80 then
        Char.ofNat b :: utf8LossyChars fuel rest
      else if 0xC2 ≤ b ∧ b ≤ 0xDF then
        match rest with
        | b2 :: rest2 =>
            if 0x80 ≤ b2 ∧ b2 ≤ 0xBF then
              Char.ofNat ((b - 0xC0) * 0x40 + (b2 - 0x80)) :: utf8LossyChars fuel rest2
            else '�' :: utf8LossyChars fuel rest
        | [] => ['�']
      else if 0xE0 ≤ b ∧ b ≤ 0xEF then
        match rest with
        | b2 :: b3 :: rest3 =>
            if (0x80 ≤ b2 ∧ b2 ≤ 0xBF) ∧ (0x80 ≤ b3 ∧ b3 ≤ 0xBF) ∧
               (b = 0xE0 → 0xA0 ≤ b2) ∧ (b = 0xED → b2 ≤ 0x9F) then
              Char.ofNat ((b - 0xE0) * 0x1000 + (b2 - 0x80) * 0x40 + (b3 - 0x80)) ::
                utf8LossyChars fuel rest3
            else '�' :: utf8LossyChars fuel rest
        | _ => '�' :: utf8LossyChars fuel rest
      else if 0xF0 ≤ b ∧ b ≤ 0xF4 then
        match rest with
        | b2 :: b3 :: b4 :: rest4 =>
            if (0x80 ≤ b2 ∧ b2 ≤ 0xBF) ∧ (0x80 ≤ b3 ∧ b3 ≤ 0xBF) ∧ (0x80 ≤ b4 ∧ b4 ≤ 0xBF) ∧
               (b = 0xF0 → 0x90 ≤ b2) ∧ (b = 0xF4 → b2 ≤ 0x8F) then
              Char.ofNat ((b - 0xF0) * 0x40000 + (b2 - 0x80) * 0x1000 +
                  (b3 - 0x80) * 0x40 + (b4 - 0x80)) ::
                utf8LossyChars fuel rest4
            else '�' :: utf8LossyChars fuel rest
        | _ => '�' :: utf8LossyChars fuel rest
      else '�' :: utf8LossyChars fuel rest

/-- Modelled from the spec: `String::from_utf8_lossy(...).into_owned()` —
the bytes of the hex-decoded key interpreted as UTF-8, invalid bytes
replaced (not rejected). -/
def utf8Lossy (bs : List Nat) : String :=
  String.mk (utf8LossyChars bs.length bs)

/-- The server's response to the HTTP authentication exchange: the three
fields of `server_response.data` that `SnxClient::authenticate` reads
(the `sslvpn` module declaring the full struct is outside `src/`; the spec
gives exactly these fields). -/
structure AuthResponseData where
  is_authenticated : String
  active_key : Option String
  session_id : Option String
  deriving Repr, DecidableEq

/-- `SnxClient::authenticate`: the external HTTP exchange
(`SnxHttpAuthenticator`) is a function from the optional prior session id
to either a transport error or a server response; the core then requires
`is_authenticated == "true"` with a present `active_key`, hex-decodes the
key and lossily UTF-8-decodes it into the cookie, and takes the returned
session id (empty string when absent). -/
def SnxClient.authenticate
    (server : Option String → Except String AuthResponseData)
    (session_id : Option String) : Except String (String × String) :=
  match server session_id with
  | .error e => .error e
  | .ok resp =>
      match resp.is_authenticated, resp.active_key with
      | "true", some key =>
          match decode_from_hex key.data with
          | .error e => .error e
          | .ok bytes => .ok (resp.session_id.getD "", utf8Lossy bytes)
      | _, _ => .error "Authentication failed!"

/-- `SnxTunnel::reauth`: runs the authentication exchange with the current
session id as the prior id, assigns `session_id` and `cookie` from the
result, and sends a hello request with `keep_address = true` without
awaiting a reply.  On an authentication failure nothing is assigned or
sent and the error is returned.  The `self.send(req).await?` can itself
fail (the outbound queue rejecting the message because the channel's pump
task has exited, a condition external to the tunnel state): `sendResult`
is the outcome of that push; on its failure the message is not queued and
the error propagates, with the credential fields already assigned. -/
def SnxTunnel.reauth (st : SnxTunnel)
    (server : Option String → Except String AuthResponseData)
    (sendResult : Except String Unit) :
    Except String Unit × SnxTunnel × List SentMsg :=
  match SnxClient.authenticate server (some st.session_id) with
  | .error e => (.error e, st, [])
  | .ok (sid, cookie) =>
      let st1 := { st with session_id := sid, cookie := cookie }
      match sendResult with
      | .error e => (.error e, st1, [])
      | .ok _ => (.ok (), st1, [SentMsg.hello (st1.new_hello_request true)])

/-- The arm of the `tokio::select!` race that fires in one iteration of the
run loop's main loop: the keepalive timer, or one result of
`tun_receiver.next()` — a packet (`Some(Ok)`), a read error (`Some(Err)`)
or end of stream (`None`). -/
inductive SelectArm where
  | timer : SelectArm
  | tunPacket : List Nat → SelectArm
  | tunReadError : SelectArm
  | tunClosed : SelectArm
  deriving Repr, DecidableEq

/-- Result of observing the run loop on a finite schedule of select
events: the loop exited with the given result, or it is still running when
the schedule ends. -/
inductive RunOutcome where
  | finished : Except String Unit → RunOutcome
  | running : RunOutcome
  deriving Repr

/-- The main loop of `SnxTunnel::run`, driven by a schedule of select arms;
the `Bool` beside each arm tells whether, at the reauth check after
handling that arm, `Instant::now() - now >= self.auth_timeout` holds (real
time is external).  Returns the loop outcome, the final tunnel state, and
the messages pushed onto the outbound queue in order.  A `Some(Ok)` tun
item is forwarded as data; any other tun read result breaks the loop,
which then returns `Ok(())`.  The outbound channel is taken as accepting
messages here (`reauth` is run with a succeeding send), the schedule
observing the loop while the channel's pump task is alive. -/
def runLoop (server : Option String → Except String AuthResponseData) :
    SnxTunnel → List (SelectArm × Bool) → RunOutcome × SnxTunnel × List SentMsg
  | st, [] => (.running, st, [])
  | st, (arm, elapsed) :: rest =>
      match arm with
      | .tunClosed => (.finished (.ok ()), st, [])
      | .tunReadError => (.finished (.ok ()), st, [])
      | .tunPacket d =>
          if st.params.reauth && elapsed then
            match st.reauth server (.ok ()) with
            | (.ok _, st2, sends2) =>
                let r := runLoop server st2 rest
                (r.1, r.2.1, SentMsg.data d :: (sends2 ++ r.2.2))
            | (.error e, st2, _) => (.finished (.error e), st2, [SentMsg.data d])
          else
            let r := runLoop server st rest
            (r.1, r.2.1, SentMsg.data d :: r.2.2)
      | .timer =>
          match st.send_keepalive with
          | (.error e, st1, _) => (.finished (.error e), st1, [])
          | (.ok _, st1, sends1) =>
              if st1.params.reauth && elapsed then
                match st1.reauth server (.ok ()) with
                | (.ok _, st2, sends2) =>
                    let r := runLoop server st2 rest
                    (r.1, r.2.1, sends1 ++ sends2 ++ r.2.2)
                | (.error e, st2, _) => (.finished (.error e), st2, sends1)
              else
                let r := runLoop server st1 rest
                (r.1, r.2.1, sends1 ++ r.2.2)

/-- `n` consecutive `send_keepalive` calls, `none` as soon as one fails. -/
def sendSeq : Nat → SnxTunnel → Option SnxTunnel
  | 0, st => some st
  | n + 1, st =>
      match st.send_keepalive with
      | (.ok _, st1, _) => sendSeq n st1
      | (.error _, _, _) => none

/-- The liveness counter after the inbound task processes one keepalive
acknowledgment. -/
def ackStep (c : Nat) : Nat :=
  (processInbound (c, []) (SnxPacket.Control KeepaliveRequest.NAME Json.null)).1

/-- The liveness counter after the inbound task processes `n` keepalive
acknowledgments in a row. -/
def ackSeq (n c : Nat) : Nat := ackStep^[n] c

/-- A concrete freshly created tunnel (the state `SnxClient::create_tunnel`
returns: timing fields zeroed, address the sentinel, counter zero). -/
def sampleTunnel : SnxTunnel :=
  { params := { server_name := "vpn.example.com", reauth := false }
    cookie := "cookie"
    session_id := "session"
    auth_timeout := 0
    keepalive := 0
    ip_address := "0.0.0.0"
    keepalive_counter := 0 }

/-- A handshake-reply payload carrying the given office-mode address and the
two timeout strings. -/
def helloJson (ip auth ka : String) : Json :=
  Json.obj [("office_mode", Json.obj [("ipaddr", Json.str ip)]),
            ("timeouts", Json.obj [("authentication", Json.str auth),
                                   ("keepalive", Json.str ka)])]

theorem U64_MOD_eq : U64_MOD = 18446744073709551616 := rfl

theorem U64_MOD_pow : U64_MOD = 2 ^ 64 := by norm_num [U64_MOD]

/-- C1 counterexample: feeding `client_hello` a handshake reply whose
`authentication` field is `"abc"` fails with the protocol error, but the
session's `ip_address` has already been overwritten with the reply's
address, so it is not left at its pre-call value. -/
theorem client_hello_bad_auth_ip_mutated :
    (sampleTunnel.client_hello (some (SnxPacket.Control HelloReply.NAME
        (helloJson "10.0.0.5" "abc" "30")))).2 =
      HelloOutcome.err "Invalid auth timeout!"
        { sampleTunnel with ip_address := "10.0.0.5" } ∧
    ({ sampleTunnel with ip_address := "10.0.0.5" } : SnxTunnel).ip_address ≠
      sampleTunnel.ip_address :=
  ⟨rfl, by decide⟩

/-- C1 (amended): a handshake reply whose `authentication` field is `"abc"`
(non-numeric) fails the handshake with the protocol error
`"Invalid auth timeout!"`, but `ip_address` has by then already been updated
to the reply's office-mode address (the assignment precedes the timeout
parse in the source). -/
theorem client_hello_bad_auth_errors (st : SnxTunnel) (ip ka : String) :
    (st.client_hello (some (SnxPacket.Control HelloReply.NAME (helloJson ip "abc" ka)))).2 =
      HelloOutcome.err "Invalid auth timeout!" { st with ip_address := ip } := rfl

/-- C2 counterexample: a handshake reply declaring an authentication
timeout of 30 seconds (≤ 60) makes `client_hello` panic — the `Duration`
subtraction `Duration::from_secs(30) - REAUTH_LEEWAY` underflows — instead
of yielding a non-positive/zero timeout. -/
theorem client_hello_small_timeout_panics :
    (sampleTunnel.client_hello (some (SnxPacket.Control HelloReply.NAME
        (helloJson "10.0.0.5" "30" "30")))).2 = HelloOutcome.panicked := rfl

/-- C2 (amended): for a parsed server authentication-timeout value `v`,
`auth_timeout` becomes `v - 60` whenever `v ≥ 60` (so 90 yields 30 and 60
yields 0, without panicking), while any `v < 60` makes the call panic on
`Duration` subtraction underflow. -/
theorem auth_timeout_leeway (st : SnxTunnel) (ip a ka : String) (v kv : Nat)
    (ha : parseU64 a = some v) (hk : parseU64 ka = some kv) :
    (REAUTH_LEEWAY ≤ v →
      (st.client_hello (some (SnxPacket.Control HelloReply.NAME (helloJson ip a ka)))).2 =
        HelloOutcome.ok
          { office_mode := { ipaddr := ip },
            timeouts := { authentication := a, keepalive := ka } }
          { st with ip_address := ip, auth_timeout := v - REAUTH_LEEWAY, keepalive := kv }) ∧
    (v < REAUTH_LEEWAY →
      (st.client_hello (some (SnxPacket.Control HelloReply.NAME (helloJson ip a ka)))).2 =
        HelloOutcome.panicked) := by
  constructor
  · intro h
    have hd : durationSubSecs v REAUTH_LEEWAY = some (v - REAUTH_LEEWAY) := by
      simp [durationSubSecs, h]
    simp [SnxTunnel.client_hello, helloJson, helloReplyFromValue, Json.getField,
          lookupField, Json.asStr, ha, hk, hd]
  · intro h
    have hd : durationSubSecs v REAUTH_LEEWAY = none := by
      simp [durationSubSecs, REAUTH_LEEWAY] at h ⊢
      omega
    simp [SnxTunnel.client_hello, helloJson, helloReplyFromValue, Json.getField,
          lookupField, Json.asStr, ha, hk, hd]

/-- C2 witness: a server value of 90 yields `auth_timeout = 30`, and a
server value of 30 panics. -/
theorem auth_timeout_leeway_witness :
    (sampleTunnel.client_hello (some (SnxPacket.Control HelloReply.NAME
        (helloJson "10.0.0.5" "90" "30")))).2 =
      HelloOutcome.ok
        { office_mode := { ipaddr := "10.0.0.5" },
          timeouts := { authentication := "90", keepalive := "30" } }
        { sampleTunnel with ip_address := "10.0.0.5", auth_timeout := 30, keepalive := 30 } ∧
    (sampleTunnel.client_hello (some (SnxPacket.Control HelloReply.NAME
        (helloJson "10.0.0.5" "30" "30")))).2 = HelloOutcome.panicked :=
  ⟨(auth_timeout_leeway sampleTunnel "10.0.0.5" "90" "30" 90 30 rfl rfl).1 (by decide),
   (auth_timeout_leeway sampleTunnel "10.0.0.5" "30" "30" 30 30 rfl rfl).2 (by decide)⟩

/-- C5: a well-formed handshake reply with address `10.0.0.5`,
authentication timeout `"120"` and keepalive timeout `"30"` makes
`client_hello` succeed, setting `ip_address = "10.0.0.5"`,
`auth_timeout = 60` seconds and the keepalive interval to 30 seconds (and
the request it sent carried `keep_address = false`). -/
theorem client_hello_wellformed (st : SnxTunnel) :
    st.client_hello (some (SnxPacket.Control HelloReply.NAME
        (helloJson "10.0.0.5" "120" "30"))) =
      (st.new_hello_request false,
        HelloOutcome.ok
          { office_mode := { ipaddr := "10.0.0.5" },
            timeouts := { authentication := "120", keepalive := "30" } }
          { st with ip_address := "10.0.0.5", auth_timeout := 60, keepalive := 30 }) := rfl

/-- C3: when the liveness counter is already at least 3, `send_keepalive`
fails with the fatal "tunnel appears stuck" liveness error, sends nothing
and leaves the state (hence the counter) untouched; otherwise it increments
the counter by exactly one and sends the keepalive request with the fixed
identifier payload `"0"`. -/
theorem send_keepalive_spec (st : SnxTunnel) :
    (3 ≤ st.keepalive_counter →
      st.send_keepalive =
        (.error "No response for keepalive packets, tunnel appears stuck", st, [])) ∧
    (st.keepalive_counter < 3 →
      st.send_keepalive =
        (.ok (), { st with keepalive_counter := st.keepalive_counter + 1 },
          [SentMsg.keepaliveReq { id := "0" }])) := by
  constructor
  · intro h
    simp [SnxTunnel.send_keepalive, h]
  · intro h
    have h3 : ¬ (st.keepalive_counter ≥ 3) := by omega
    have hm : (st.keepalive_counter + 1) % U64_MOD = st.keepalive_counter + 1 :=
      Nat.mod_eq_of_lt (by rw [U64_MOD_eq]; omega)
    simp [SnxTunnel.send_keepalive, h3, hm]

/-- C3 witness: at counter 3 the call fails and sends nothing; at counter 0
it increments to 1 and sends the keepalive request. -/
theorem send_keepalive_spec_witness :
    SnxTunnel.send_keepalive { sampleTunnel with keepalive_counter := 3 } =
      (.error "No response for keepalive packets, tunnel appears stuck",
        { sampleTunnel with keepalive_counter := 3 }, []) ∧
    SnxTunnel.send_keepalive sampleTunnel =
      (.ok (), { sampleTunnel with keepalive_counter := 1 },
        [SentMsg.keepaliveReq { id := "0" }]) :=
  ⟨(send_keepalive_spec { sampleTunnel with keepalive_counter := 3 }).1 (by decide),
   (send_keepalive_spec sampleTunnel).2 (by decide)⟩

/-- C4: processing a keepalive acknowledgment while the liveness counter is
zero performs the wrapping `fetch_sub`, leaving the counter at
`2 ^ 64 - 1` rather than zero, and in that state the next `send_keepalive`
fails with the fatal liveness error without sending anything. -/
theorem ack_at_zero_wraps (out : List (List Nat)) (v : Json) (st : SnxTunnel) :
    (processInbound (0, out) (SnxPacket.Control KeepaliveRequest.NAME v)).1 = U64_MOD - 1 ∧
    SnxTunnel.send_keepalive
        { st with keepalive_counter :=
            (processInbound (0, out) (SnxPacket.Control KeepaliveRequest.NAME v)).1 } =
      (.error "No response for keepalive packets, tunnel appears stuck",
        { st with keepalive_counter := U64_MOD - 1 }, []) := by
  have h1 : (processInbound (0, out) (SnxPacket.Control KeepaliveRequest.NAME v)).1 =
      U64_MOD - 1 := by
    show (0 + (U64_MOD - 1)) % U64_MOD = U64_MOD - 1
    rw [U64_MOD_eq]
  refine ⟨h1, ?_⟩
  rw [h1]
  have h3 : (U64_MOD - 1) ≥ 3 := by rw [U64_MOD_eq]; omega
  simp [SnxTunnel.send_keepalive, h3]

/-- C6: one step of the inbound-handling task — a `Data` packet resets the
liveness counter to zero (whatever its prior value) and appends its payload
to the virtual interface; a keepalive-acknowledgment `Control` packet
performs the wrapping decrement of the counter (an ordinary decrement for
any positive in-range counter); any other `Control` packet changes neither
the counter nor the interface output. -/
theorem inbound_task_spec (c : Nat) (out : List (List Nat)) :
    (∀ d, processInbound (c, out) (SnxPacket.Data d) = (0, out ++ [d])) ∧
    (∀ v, processInbound (c, out) (SnxPacket.Control KeepaliveRequest.NAME v) =
      ((c + (U64_MOD - 1)) % U64_MOD, out)) ∧
    (∀ v, 1 ≤ c → c < U64_MOD →
      processInbound (c, out) (SnxPacket.Control KeepaliveRequest.NAME v) = (c - 1, out)) ∧
    (∀ name v, name ≠ KeepaliveRequest.NAME →
      processInbound (c, out) (SnxPacket.Control name v) = (c, out)) := by
  refine ⟨fun d => rfl, fun v => rfl, fun v h1 h2 => ?_, fun name v h => ?_⟩
  · show ((c + (U64_MOD - 1)) % U64_MOD, out) = (c - 1, out)
    rw [U64_MOD_eq] at h2 ⊢
    rw [Prod.mk.injEq]
    exact ⟨by omega, rfl⟩
  · simp [processInbound, h]

/-- C6 witness: at counter 5, a data packet resets the counter and is
written out, a keepalive acknowledgment decrements the counter to 4, and an
unrelated control message leaves everything unchanged. -/
theorem inbound_task_spec_witness :
    processInbound (5, []) (SnxPacket.Data [1, 2]) = (0, [[1, 2]]) ∧
    processInbound (5, []) (SnxPacket.Control KeepaliveRequest.NAME Json.null) =
      ((5 + (U64_MOD - 1)) % U64_MOD, []) ∧
    processInbound (5, []) (SnxPacket.Control KeepaliveRequest.NAME Json.null) = (4, []) ∧
    processInbound (5, []) (SnxPacket.Control "disconnect" Json.null) = (5, []) :=
  ⟨(inbound_task_spec 5 []).1 [1, 2],
   (inbound_task_spec 5 []).2.1 Json.null,
   (inbound_task_spec 5 []).2.2.1 Json.null (by omega) (by rw [U64_MOD_eq]; omega),
   (inbound_task_spec 5 []).2.2.2 "disconnect" Json.null (by decide)⟩

theorem sendSeq_counter (n : Nat) (st st' : SnxTunnel) (h : sendSeq n st = some st') :
    st'.keepalive_counter = st.keepalive_counter + n ∧
      (n = 0 ∨ st.keepalive_counter + n ≤ 3) := by
  induction n generalizing st with
  | zero =>
      simp only [sendSeq, Option.some.injEq] at h
      subst h
      simp
  | succ n ih =>
      by_cases h3 : st.keepalive_counter ≥ 3
      · simp [sendSeq, SnxTunnel.send_keepalive, h3] at h
      · have hm : (st.keepalive_counter + 1) % U64_MOD = st.keepalive_counter + 1 :=
          Nat.mod_eq_of_lt (by rw [U64_MOD_eq]; omega)
        simp only [sendSeq, SnxTunnel.send_keepalive, h3, if_false, hm] at h
        obtain ⟨h1, h2⟩ := ih _ h
        have hc : ({ st with keepalive_counter := st.keepalive_counter + 1 } :
            SnxTunnel).keepalive_counter = st.keepalive_counter + 1 := rfl
        rw [hc] at h1 h2
        refine ⟨by omega, Or.inr ?_⟩
        rcases h2 with h2 | h2 <;> omega

theorem ackSeq_cancel (n c : Nat) (h : c + n < U64_MOD) : ackSeq n (c + n) = c := by
  induction n with
  | zero => rfl
  | succ n ih =>
      have hd : ackStep (c + (n + 1)) = c + n := by
        show (c + (n + 1) + (U64_MOD - 1)) % U64_MOD = c + n
        rw [U64_MOD_eq] at h ⊢
        omega
      have hstep : ackSeq (n + 1) (c + (n + 1)) = ackSeq n (ackStep (c + (n + 1))) :=
        Function.iterate_succ_apply ackStep n (c + (n + 1))
      rw [hstep, hd]
      exact ih (by omega)

/-- C7: if `n` consecutive `send_keepalive` calls all succeed, then
processing `n` keepalive acknowledgments afterwards returns the liveness
counter to its value before the sequence. -/
theorem keepalive_send_ack_roundtrip (n : Nat) (st st' : SnxTunnel)
    (h : sendSeq n st = some st') :
    ackSeq n st'.keepalive_counter = st.keepalive_counter := by
  obtain ⟨h1, h2⟩ := sendSeq_counter n st st' h
  rcases h2 with rfl | h2
  · rw [h1]
    simp [ackSeq]
  · rw [h1]
    exact ackSeq_cancel n st.keepalive_counter (by rw [U64_MOD_eq] at *; omega)

/-- C7 witness: two successful sends from a fresh tunnel take the counter
from 0 to 2, and two acknowledgments bring it back to 0. -/
theorem keepalive_send_ack_roundtrip_witness : ackSeq 2 2 = 0 :=
  keepalive_send_ack_roundtrip 2 sampleTunnel
    { sampleTunnel with keepalive_counter := 2 } rfl

/-- C8 counterexample: a server response with `is_authenticated = "true"`
and a present `active_key` whose value `"zz"` is not valid hex does NOT
make `authenticate` succeed — hex-decoding the key fails and the error is
not the "Authentication failed!" message either. -/
theorem authenticate_invalid_hex_fails :
    SnxClient.authenticate
      (fun _ => .ok { is_authenticated := "true", active_key := some "zz",
                      session_id := some "s" }) none = .error "Invalid hex character" := rfl

/-- C8 (amended): `authenticate` succeeds exactly when the server response
has `is_authenticated = "true"`, a present `active_key`, and the key
hex-decodes; a response with `is_authenticated ≠ "true"` or an absent
`active_key` fails with the message exactly "Authentication failed!"; on
success the cookie is the lossy UTF-8 interpretation of the hex-decoded
key, so the stub response with key `hex("cookie123")` and session id
`"sess1"` yields `("sess1", "cookie123")`. -/
theorem authenticate_contract (r : AuthResponseData) (key : String) (bytes : List Nat) :
    (r.is_authenticated ≠ "true" ∨ r.active_key = none →
      SnxClient.authenticate (fun _ => .ok r) none = .error "Authentication failed!") ∧
    (r.is_authenticated = "true" → r.active_key = some key →
      decode_from_hex key.data = .ok bytes →
      SnxClient.authenticate (fun _ => .ok r) none =
        .ok (r.session_id.getD "", utf8Lossy bytes)) ∧
    SnxClient.authenticate
        (fun _ => .ok { is_authenticated := "true", active_key := some "636f6f6b6965313233",
                        session_id := some "sess1" }) none = .ok ("sess1", "cookie123") := by
  refine ⟨fun h => ?_, fun h1 h2 h3 => ?_, rfl⟩
  · simp only [SnxClient.authenticate]
    split
    · rename_i heq1 heq2
      rcases h with h | h
      · exact absurd heq1 h
      · rw [h] at heq2
        exact absurd heq2 (by simp)
    · rfl
  · simp only [SnxClient.authenticate, h1, h2, h3]

/-- C8 witness: a response with `is_authenticated = "false"` fails with
exactly "Authentication failed!", and a response with key `"61"`
(hex for byte 0x61, the letter a) succeeds with cookie `"a"`. -/
theorem authenticate_contract_witness :
    SnxClient.authenticate
      (fun _ => .ok { is_authenticated := "false", active_key := none,
                      session_id := none }) none = .error "Authentication failed!" ∧
    SnxClient.authenticate
      (fun _ => .ok { is_authenticated := "true", active_key := some "61",
                      session_id := some "s" }) none = .ok ("s", "a") :=
  ⟨(authenticate_contract
      { is_authenticated := "false", active_key := none, session_id := none }
      "" []).1 (Or.inl (by decide)),
   (authenticate_contract
      { is_authenticated := "true", active_key := some "61", session_id := some "s" }
      "61" [97]).2.1 rfl rfl rfl⟩

/-- C9: `reauth` runs the authentication exchange with the current session
id as the prior id; if that exchange fails, the error is surfaced and both
`session_id` and `cookie` keep their pre-call values (and nothing is
sent); if it succeeds, both fields are replaced together and a hello
request with `keep_address = true` is sent, built from the updated state;
and if that send fails, the send error is surfaced to the caller as well
(with both fields already replaced together — never partially). -/
theorem reauth_spec (st : SnxTunnel)
    (server : Option String → Except String AuthResponseData)
    (sendResult : Except String Unit) :
    (∀ e, SnxClient.authenticate server (some st.session_id) = .error e →
      st.reauth server sendResult = (.error e, st, [])) ∧
    (∀ sid cookie, SnxClient.authenticate server (some st.session_id) = .ok (sid, cookie) →
      st.reauth server (.ok ()) =
        (.ok (), { st with session_id := sid, cookie := cookie },
          [SentMsg.hello (SnxTunnel.new_hello_request
            { st with session_id := sid, cookie := cookie } true)])) ∧
    (∀ sid cookie e, SnxClient.authenticate server (some st.session_id) = .ok (sid, cookie) →
      sendResult = .error e →
      st.reauth server sendResult =
        (.error e, { st with session_id := sid, cookie := cookie }, [])) := by
  refine ⟨fun e h => ?_, fun sid cookie h => ?_, fun sid cookie e h hs => ?_⟩
  · simp only [SnxTunnel.reauth, h]
  · simp only [SnxTunnel.reauth, h]
  · simp only [SnxTunnel.reauth, h, hs]

/-- C9 witness: a failing exchange leaves the sample tunnel untouched and
surfaces the error; a succeeding one with an accepting channel replaces
both credential fields and sends the `keep_address = true` hello built
from the new state; a succeeding one whose hello send fails surfaces the
send error with both fields replaced and nothing queued. -/
theorem reauth_spec_witness :
    sampleTunnel.reauth (fun _ => .error "connection refused") (.ok ()) =
      (.error "connection refused", sampleTunnel, []) ∧
    sampleTunnel.reauth
        (fun _ => .ok { is_authenticated := "true", active_key := some "61",
                        session_id := some "s2" }) (.ok ()) =
      (.ok (), { sampleTunnel with session_id := "s2", cookie := "a" },
        [SentMsg.hello (SnxTunnel.new_hello_request
          { sampleTunnel with session_id := "s2", cookie := "a" } true)]) ∧
    sampleTunnel.reauth
        (fun _ => .ok { is_authenticated := "true", active_key := some "61",
                        session_id := some "s2" }) (.error "Channel closed!") =
      (.error "Channel closed!",
        { sampleTunnel with session_id := "s2", cookie := "a" }, []) :=
  ⟨(reauth_spec sampleTunnel (fun _ => .error "connection refused") (.ok ())).1
      "connection refused" rfl,
   (reauth_spec sampleTunnel
      (fun _ => .ok { is_authenticated := "true", active_key := some "61",
                      session_id := some "s2" }) (.ok ())).2.1 "s2" "a" rfl,
   (reauth_spec sampleTunnel
      (fun _ => .ok { is_authenticated := "true", active_key := some "61",
                      session_id := some "s2" }) (.error "Channel closed!")).2.2
      "s2" "a" "Channel closed!" rfl rfl⟩

/-- C10: in the run loop, a read from the virtual interface that yields an
error (`Some(Err)`) takes the same `break` branch as a clean end of stream
(`None`): in both cases the loop exits immediately — skipping the reauth
check and the rest of the schedule — and `run` returns `Ok(())`, so an
interface read error is reported as a clean shutdown. -/
theorem run_tun_error_exits_ok
    (server : Option String → Except String AuthResponseData)
    (st : SnxTunnel) (b : Bool) (rest : List (SelectArm × Bool)) :
    runLoop server st ((SelectArm.tunReadError, b) :: rest) =
      (RunOutcome.finished (.ok ()), st, []) ∧
    runLoop server st ((SelectArm.tunClosed, b) :: rest) =
      (RunOutcome.finished (.ok ()), st, []) :=
  ⟨rfl, rfl⟩
